import Mathlib

/-!
Shallow embedding of the real-time negotiation protocol layer
(server side: src/server/routes.ts, WebSocket section; wire schema:
shared schema file; client side: NegotiationWebSocket class).

Connections are identified by natural numbers.  The two server-side
registries (userSockets, negotiationRooms) are association lists mimicking
the JS Map of Set values: Map.set replaces the value of an existing key in
place or appends a fresh key at the end, Set.add appends when absent,
Set.delete removes the element.  The storage collaborator is a record of
functions; fallible operations return Except Unit so that a thrown storage
error can be modelled.  Storage reads are taken from one snapshot: the
handlers under study never re-read a field they have just written except
for participant ids, which no handler changes, so a snapshot is
observationally faithful for the properties proved here.

Every externally visible action of a handler (storage write, frame sent,
socket closed) is recorded, in program order, in a list of Effect values.
-/

/-- A negotiation row as read through the storage collaborator. -/
structure Negotiation where
  id : String
  productId : String
  buyerId : String
  sellerId : String
  status : String
  currentOffer : Option String
deriving Repr, DecidableEq

/-- A user row; username is nullable in the schema. -/
structure User where
  id : String
  username : Option String
deriving Repr, DecidableEq

/-- The argument object of storage.createMessage. -/
structure MessageInput where
  negotiationId : String
  senderId : String
  messageType : String
  content : Option String
  amount : Option String
deriving Repr, DecidableEq

/-- The row returned by storage.createMessage (fields used by the handlers). -/
structure StoredMessage where
  id : String
  createdAt : String
deriving Repr, DecidableEq

/-- The storage collaborator consumed by the protocol handler.  Operations
whose JS counterpart is awaited and may throw are modelled with Except. -/
structure Storage where
  getNegotiation : String → Option Negotiation
  getUser : String → Option User
  updateNegotiation : String → String → Except Unit Unit
  updateNegotiationStatus : String → String → Except Unit Unit
  createMessage : MessageInput → Except Unit StoredMessage
  updateUserOnlineStatus : String → Bool → Except Unit (Option User)
  setUserLastSeen : String → Except Unit Unit
  getUsersOnlineStatus : List String → List (String × Bool)

/-- Outbound frames, mirroring the JSON objects the server writes. -/
inductive OutFrame where
  | error (message : String)
  | connection_confirmed (userId username : String)
  | negotiation_joined (negotiationId : String)
  | negotiation_left (negotiationId : String)
  | negotiation_update (negotiationId : String) (id senderId senderName messageType : String)
      (content : Option String) (amount : Option Nat) (createdAt : String)
  | presence_update (userId username : String) (isOnline : Bool)
  | presence_updated (userId : String) (isOnline : Bool)
  | presence_data (users : List (String × Bool))
  | negotiation_status_update (negotiationId status changedBy changedByName : String)
deriving Repr, DecidableEq

/-- One externally visible action of a handler, in program order. -/
inductive Effect where
  | updateNegotiationOffer (negotiationId currentOffer : String)
  | updateNegotiationStatus (negotiationId status : String)
  | createMessage (input : MessageInput)
  | updateUserOnlineStatus (userId : String) (isOnline : Bool)
  | setUserLastSeen (userId : String)
  | sendFrame (conn : Nat) (frame : OutFrame)
  | closeConn (conn : Nat) (code : Nat) (reason : String)
deriving Repr, DecidableEq

/-- The two in-memory registries: userSockets and negotiationRooms. -/
structure ServerState where
  userSockets : List (String × List Nat)
  negotiationRooms : List (String × List Nat)
deriving Repr, DecidableEq

/-- Map.get: value of the first (unique) entry for a key. -/
def mapGet : List (String × List Nat) → String → Option (List Nat)
  | [], _ => none
  | p :: rest, k => if p.1 = k then some p.2 else mapGet rest k

/-- Map.set: replace the value of an existing key in place, else append. -/
def mapSet : List (String × List Nat) → String → List Nat → List (String × List Nat)
  | [], k, v => [(k, v)]
  | p :: rest, k, v => if p.1 = k then (k, v) :: rest else p :: mapSet rest k v

/-- Map.delete: remove the (unique) entry for a key. -/
def mapDelete : List (String × List Nat) → String → List (String × List Nat)
  | [], _ => []
  | p :: rest, k => if p.1 = k then rest else p :: mapDelete rest k

/-- Set.add: append the element when absent. -/
def setAdd (s : List Nat) (c : Nat) : List Nat :=
  if c ∈ s then s else s ++ [c]

/-- Set.delete: remove the element. -/
def setDelete (s : List Nat) (c : Nat) : List Nat :=
  s.filter (fun x => x ≠ c)

/-- JS expression a || b for an optional string: the default replaces both
null and the empty string (which is falsy). -/
def jsOr (s : Option String) (d : String) : String :=
  match s with
  | none => d
  | some v => if v = "" then d else v

/-- senderName computation: user.username || "Unknown", with a missing user
row also giving "Unknown". -/
def usernameOrUnknown (u : Option User) : String :=
  match u with
  | none => "Unknown"
  | some user => jsOr user.username "Unknown"

/-- Parsed inbound frames: the closed tagged union of wsMessageSchema. -/
inductive WSMessage where
  | join_negotiation (negotiationId : String)
  | leave_negotiation (negotiationId : String)
  | negotiation_message (negotiationId content : String)
  | negotiation_offer (negotiationId : String) (amount : Nat) (message : Option String)
  | negotiation_counter (negotiationId : String) (amount : Nat) (message : Option String)
  | negotiation_accept (negotiationId : String)
  | negotiation_reject (negotiationId : String) (message : Option String)
  | negotiation_status (negotiationId status : String)
  | presence_update (userId : String) (isOnline : Bool)
  | request_presence (userIds : Option (List String))
deriving Repr, DecidableEq

/-- A raw decoded JSON object before schema validation: a type tag plus the
fields the schema may require (absent fields are none). -/
structure RawFrame where
  type : String
  negotiationId : Option String := none
  content : Option String := none
  amount : Option Nat := none
  message : Option String := none
  status : Option String := none
  userId : Option String := none
  isOnline : Option Bool := none
  userIds : Option (List String) := none
deriving Repr, DecidableEq

/-- wsMessageSchema.parse: validation of an inbound frame against the
discriminated union.  An unknown type tag, a missing required field, a
chat content outside 1..1000 characters, a non-positive amount or an
unexpected status value all fail (the JS parse throws). -/
def wsMessageSchemaParse (raw : RawFrame) : Option WSMessage :=
  match raw.type with
  | "join_negotiation" => raw.negotiationId.map WSMessage.join_negotiation
  | "leave_negotiation" => raw.negotiationId.map WSMessage.leave_negotiation
  | "negotiation_message" =>
    match raw.negotiationId, raw.content with
    | some nid, some c =>
      if 1 ≤ c.length ∧ c.length ≤ 1000 then some (WSMessage.negotiation_message nid c) else none
    | _, _ => none
  | "negotiation_offer" =>
    match raw.negotiationId, raw.amount with
    | some nid, some a =>
      if 0 < a then some (WSMessage.negotiation_offer nid a raw.message) else none
    | _, _ => none
  | "negotiation_counter" =>
    match raw.negotiationId, raw.amount with
    | some nid, some a =>
      if 0 < a then some (WSMessage.negotiation_counter nid a raw.message) else none
    | _, _ => none
  | "negotiation_accept" => raw.negotiationId.map WSMessage.negotiation_accept
  | "negotiation_reject" =>
    raw.negotiationId.map (fun nid => WSMessage.negotiation_reject nid raw.message)
  | "negotiation_status" =>
    match raw.negotiationId, raw.status with
    | some nid, some s =>
      if s = "active" ∨ s = "completed" ∨ s = "cancelled"
      then some (WSMessage.negotiation_status nid s) else none
    | _, _ => none
  | "presence_update" =>
    match raw.userId, raw.isOnline with
    | some u, some b => some (WSMessage.presence_update u b)
    | _, _ => none
  | "request_presence" => some (WSMessage.request_presence raw.userIds)
  | _ => none

/-- broadcastToNegotiation: send a frame to every open connection of the
room of one negotiation (no room, no sends). -/
def broadcastToNegotiation (st : ServerState) (openConns : Nat → Bool)
    (negotiationId : String) (frame : OutFrame) : List Effect :=
  match mapGet st.negotiationRooms negotiationId with
  | none => []
  | some room => (room.filter openConns).map (fun c => Effect.sendFrame c frame)

/-- broadcastPresenceUpdate: send a presence_update frame to every open
connection of every user other than the subject. -/
def broadcastPresenceUpdate (userSockets : List (String × List Nat)) (openConns : Nat → Bool)
    (userId username : String) (isOnline : Bool) : List Effect :=
  (userSockets.filter (fun p => p.1 ≠ userId)).flatMap
    (fun p => (p.2.filter openConns).map
      (fun c => Effect.sendFrame c (OutFrame.presence_update userId username isOnline)))

/-- Result of validateNegotiationAccess. -/
inductive AccessResult where
  | failure (error : String)
  | success (negotiation : Negotiation)
deriving Repr, DecidableEq

/-- validateNegotiationAccess: not-found, then terminal-status, then
participant check, in the order of the source. -/
def validateNegotiationAccess (storage : Storage) (userId negotiationId : String) : AccessResult :=
  match storage.getNegotiation negotiationId with
  | none => AccessResult.failure "Negotiation not found"
  | some negotiation =>
    if negotiation.status = "completed" ∨ negotiation.status = "cancelled" then
      AccessResult.failure "Cannot modify completed or cancelled negotiation"
    else if negotiation.buyerId ≠ userId ∧ negotiation.sellerId ≠ userId then
      AccessResult.failure "Access denied to this negotiation"
    else AccessResult.success negotiation

/-- handleNegotiationMessage: access check, persist the chat row, then
broadcast; a thrown createMessage lands in the catch, which sends one
error frame to the sender. -/
def handleNegotiationMessage (storage : Storage) (st : ServerState) (openConns : Nat → Bool)
    (conn : Nat) (userId negotiationId content : String) : List Effect :=
  match validateNegotiationAccess storage userId negotiationId with
  | AccessResult.failure e => [Effect.sendFrame conn (OutFrame.error e)]
  | AccessResult.success _ =>
    let input : MessageInput := ⟨negotiationId, userId, "chat", some content, none⟩
    match storage.createMessage input with
    | Except.error _ => [Effect.sendFrame conn (OutFrame.error "Failed to send message")]
    | Except.ok m =>
      Effect.createMessage input ::
      broadcastToNegotiation st openConns negotiationId
        (OutFrame.negotiation_update negotiationId m.id userId
          (usernameOrUnknown (storage.getUser userId)) "chat" (some content) none m.createdAt)

/-- handleNegotiationOffer: access check, buyer-only check, write the
current offer, persist the offer row, then broadcast.  A storage throw
after the current-offer write keeps that write and sends one error frame. -/
def handleNegotiationOffer (storage : Storage) (st : ServerState) (openConns : Nat → Bool)
    (conn : Nat) (userId negotiationId : String) (amount : Nat) (message : Option String) :
    List Effect :=
  match validateNegotiationAccess storage userId negotiationId with
  | AccessResult.failure e => [Effect.sendFrame conn (OutFrame.error e)]
  | AccessResult.success negotiation =>
    if negotiation.buyerId ≠ userId then
      [Effect.sendFrame conn (OutFrame.error "Only buyers can make offers")]
    else
      match storage.updateNegotiation negotiationId (toString amount) with
      | Except.error _ => [Effect.sendFrame conn (OutFrame.error "Failed to make offer")]
      | Except.ok _ =>
        let content := jsOr message ("Offered $" ++ toString amount)
        let input : MessageInput := ⟨negotiationId, userId, "offer", some content, some (toString amount)⟩
        match storage.createMessage input with
        | Except.error _ =>
          [Effect.updateNegotiationOffer negotiationId (toString amount),
           Effect.sendFrame conn (OutFrame.error "Failed to make offer")]
        | Except.ok m =>
          Effect.updateNegotiationOffer negotiationId (toString amount) ::
          Effect.createMessage input ::
          broadcastToNegotiation st openConns negotiationId
            (OutFrame.negotiation_update negotiationId m.id userId
              (usernameOrUnknown (storage.getUser userId)) "offer" (some content) (some amount) m.createdAt)

/-- handleNegotiationCounter: like the offer handler with a seller-only
check and counter wording. -/
def handleNegotiationCounter (storage : Storage) (st : ServerState) (openConns : Nat → Bool)
    (conn : Nat) (userId negotiationId : String) (amount : Nat) (message : Option String) :
    List Effect :=
  match validateNegotiationAccess storage userId negotiationId with
  | AccessResult.failure e => [Effect.sendFrame conn (OutFrame.error e)]
  | AccessResult.success negotiation =>
    if negotiation.sellerId ≠ userId then
      [Effect.sendFrame conn (OutFrame.error "Only sellers can make counter offers")]
    else
      match storage.updateNegotiation negotiationId (toString amount) with
      | Except.error _ => [Effect.sendFrame conn (OutFrame.error "Failed to make counter offer")]
      | Except.ok _ =>
        let content := jsOr message ("Counter offer: $" ++ toString amount)
        let input : MessageInput := ⟨negotiationId, userId, "counter", some content, some (toString amount)⟩
        match storage.createMessage input with
        | Except.error _ =>
          [Effect.updateNegotiationOffer negotiationId (toString amount),
           Effect.sendFrame conn (OutFrame.error "Failed to make counter offer")]
        | Except.ok m =>
          Effect.updateNegotiationOffer negotiationId (toString amount) ::
          Effect.createMessage input ::
          broadcastToNegotiation st openConns negotiationId
            (OutFrame.negotiation_update negotiationId m.id userId
              (usernameOrUnknown (storage.getUser userId)) "counter" (some content) (some amount) m.createdAt)

/-- handleNegotiationAccept: access check, set status to completed,
persist the accept row, broadcast. -/
def handleNegotiationAccept (storage : Storage) (st : ServerState) (openConns : Nat → Bool)
    (conn : Nat) (userId negotiationId : String) : List Effect :=
  match validateNegotiationAccess storage userId negotiationId with
  | AccessResult.failure e => [Effect.sendFrame conn (OutFrame.error e)]
  | AccessResult.success _ =>
    match storage.updateNegotiationStatus negotiationId "completed" with
    | Except.error _ => [Effect.sendFrame conn (OutFrame.error "Failed to accept offer")]
    | Except.ok _ =>
      let input : MessageInput := ⟨negotiationId, userId, "accept", some "Offer accepted!", none⟩
      match storage.createMessage input with
      | Except.error _ =>
        [Effect.updateNegotiationStatus negotiationId "completed",
         Effect.sendFrame conn (OutFrame.error "Failed to accept offer")]
      | Except.ok m =>
        Effect.updateNegotiationStatus negotiationId "completed" ::
        Effect.createMessage input ::
        broadcastToNegotiation st openConns negotiationId
          (OutFrame.negotiation_update negotiationId m.id userId
            (usernameOrUnknown (storage.getUser userId)) "accept" (some "Offer accepted!") none m.createdAt)

/-- handleNegotiationReject: access check, persist the reject row (no
status write), broadcast. -/
def handleNegotiationReject (storage : Storage) (st : ServerState) (openConns : Nat → Bool)
    (conn : Nat) (userId negotiationId : String) (message : Option String) : List Effect :=
  match validateNegotiationAccess storage userId negotiationId with
  | AccessResult.failure e => [Effect.sendFrame conn (OutFrame.error e)]
  | AccessResult.success _ =>
    let content := jsOr message "Offer rejected"
    let input : MessageInput := ⟨negotiationId, userId, "reject", some content, none⟩
    match storage.createMessage input with
    | Except.error _ => [Effect.sendFrame conn (OutFrame.error "Failed to reject offer")]
    | Except.ok m =>
      Effect.createMessage input ::
      broadcastToNegotiation st openConns negotiationId
        (OutFrame.negotiation_update negotiationId m.id userId
          (usernameOrUnknown (storage.getUser userId)) "reject" (some content) none m.createdAt)

/-- broadcastNegotiationStatusUpdate: dedicated status frame to every open
socket of both participants (looked up through userSockets). -/
def broadcastNegotiationStatusUpdate (storage : Storage) (st : ServerState)
    (openConns : Nat → Bool) (negotiationId status changedBy : String) : List Effect :=
  match storage.getNegotiation negotiationId with
  | none => []
  | some negotiation =>
    let changedByName := usernameOrUnknown (storage.getUser changedBy)
    [negotiation.buyerId, negotiation.sellerId].flatMap (fun pid =>
      match mapGet st.userSockets pid with
      | none => []
      | some socks => (socks.filter openConns).map
          (fun c => Effect.sendFrame c
            (OutFrame.negotiation_status_update negotiationId status changedBy changedByName)))

/-- handleNegotiationStatus: access check, write the status, persist the
status row, broadcast the room update and then the dedicated status
update. -/
def handleNegotiationStatus (storage : Storage) (st : ServerState) (openConns : Nat → Bool)
    (conn : Nat) (userId negotiationId status : String) : List Effect :=
  match validateNegotiationAccess storage userId negotiationId with
  | AccessResult.failure e => [Effect.sendFrame conn (OutFrame.error e)]
  | AccessResult.success _ =>
    match storage.updateNegotiationStatus negotiationId status with
    | Except.error _ => [Effect.sendFrame conn (OutFrame.error "Failed to update status")]
    | Except.ok _ =>
      let content := "Negotiation status changed to: " ++ status
      let input : MessageInput := ⟨negotiationId, userId, "status", some content, none⟩
      match storage.createMessage input with
      | Except.error _ =>
        [Effect.updateNegotiationStatus negotiationId status,
         Effect.sendFrame conn (OutFrame.error "Failed to update status")]
      | Except.ok m =>
        Effect.updateNegotiationStatus negotiationId status ::
        Effect.createMessage input ::
        (broadcastToNegotiation st openConns negotiationId
          (OutFrame.negotiation_update negotiationId m.id userId
            (usernameOrUnknown (storage.getUser userId)) "status" (some content) none m.createdAt)
         ++ broadcastNegotiationStatusUpdate storage st openConns negotiationId status userId)

/-- handleJoinNegotiation: falsy-argument guard, negotiation lookup,
participant check (note: no status check), then add the connection to the
room, creating the room lazily. -/
def handleJoinNegotiation (storage : Storage) (st : ServerState) (conn : Nat)
    (wsUserId negotiationId : Option String) : ServerState × List Effect :=
  match negotiationId, wsUserId with
  | some nid, some uid =>
    if nid = "" ∨ uid = "" then
      (st, [Effect.sendFrame conn (OutFrame.error "Invalid negotiation ID")])
    else
      match storage.getNegotiation nid with
      | none => (st, [Effect.sendFrame conn (OutFrame.error "Negotiation not found")])
      | some negotiation =>
        if negotiation.buyerId ≠ uid ∧ negotiation.sellerId ≠ uid then
          (st, [Effect.sendFrame conn (OutFrame.error "Access denied to this negotiation")])
        else
          let room := (mapGet st.negotiationRooms nid).getD []
          ({st with negotiationRooms := mapSet st.negotiationRooms nid (setAdd room conn)},
           [Effect.sendFrame conn (OutFrame.negotiation_joined nid)])
  | _, _ => (st, [Effect.sendFrame conn (OutFrame.error "Invalid negotiation ID")])

/-- handleLeaveNegotiation: silent return on a falsy id; otherwise remove
the connection from the room, delete the room when it becomes empty, and
confirm with negotiation_left. -/
def handleLeaveNegotiation (st : ServerState) (conn : Nat) (negotiationId : Option String) :
    ServerState × List Effect :=
  match negotiationId with
  | none => (st, [])
  | some nid =>
    if nid = "" then (st, [])
    else
      let st2 :=
        match mapGet st.negotiationRooms nid with
        | none => st
        | some room =>
          let room2 := setDelete room conn
          if room2 = [] then
            { st with negotiationRooms := mapDelete st.negotiationRooms nid }
          else
            { st with negotiationRooms := mapSet st.negotiationRooms nid room2 }
      (st2, [Effect.sendFrame conn (OutFrame.negotiation_left nid)])

/-- handlePresenceUpdate: a user may only update their own presence; the
persisted row (when returned) drives a broadcast and a confirmation. -/
def handlePresenceUpdate (storage : Storage) (st : ServerState) (openConns : Nat → Bool)
    (conn : Nat) (wsUserId userId : String) (isOnline : Bool) : List Effect :=
  if wsUserId ≠ userId then
    [Effect.sendFrame conn (OutFrame.error "Cannot update presence for other users")]
  else
    match storage.updateUserOnlineStatus userId isOnline with
    | Except.error _ => [Effect.sendFrame conn (OutFrame.error "Failed to update presence")]
    | Except.ok none => [Effect.updateUserOnlineStatus userId isOnline]
    | Except.ok (some user) =>
      Effect.updateUserOnlineStatus userId isOnline ::
      (broadcastPresenceUpdate st.userSockets openConns userId (jsOr user.username "Unknown") isOnline
       ++ [Effect.sendFrame conn (OutFrame.presence_updated userId isOnline)])

/-- handlePresenceRequest: reply to the requester only with the persisted
presence of the requested users (all connected users when omitted). -/
def handlePresenceRequest (storage : Storage) (st : ServerState) (conn : Nat)
    (wsUserId : Option String) (userIds : Option (List String)) : List Effect :=
  match wsUserId with
  | none => [Effect.sendFrame conn (OutFrame.error "Not authenticated")]
  | some _ =>
    let target := userIds.getD (st.userSockets.map (fun p => p.1))
    [Effect.sendFrame conn (OutFrame.presence_data (storage.getUsersOnlineStatus target))]

/-- handleWebSocketMessage: authentication guard, schema validation, then
exhaustive dispatch.  A frame that fails validation (including an unknown
type tag, on which the schema parse throws) is answered from the catch
with the frame error "Invalid message format"; the switch has a default
branch answering "Unknown message type" but validation throws before the
switch runs, so that branch is unreachable. -/
def handleWebSocketMessage (storage : Storage) (st : ServerState) (openConns : Nat → Bool)
    (conn : Nat) (wsUserId : Option String) (raw : RawFrame) : ServerState × List Effect :=
  match wsUserId with
  | none => (st, [Effect.sendFrame conn (OutFrame.error "Not authenticated")])
  | some uid =>
    match wsMessageSchemaParse raw with
    | none => (st, [Effect.sendFrame conn (OutFrame.error "Invalid message format")])
    | some msg =>
      match msg with
      | WSMessage.join_negotiation nid => handleJoinNegotiation storage st conn (some uid) (some nid)
      | WSMessage.leave_negotiation nid => handleLeaveNegotiation st conn (some nid)
      | WSMessage.negotiation_message nid c =>
        (st, handleNegotiationMessage storage st openConns conn uid nid c)
      | WSMessage.negotiation_offer nid a m =>
        (st, handleNegotiationOffer storage st openConns conn uid nid a m)
      | WSMessage.negotiation_counter nid a m =>
        (st, handleNegotiationCounter storage st openConns conn uid nid a m)
      | WSMessage.negotiation_accept nid =>
        (st, handleNegotiationAccept storage st openConns conn uid nid)
      | WSMessage.negotiation_reject nid m =>
        (st, handleNegotiationReject storage st openConns conn uid nid m)
      | WSMessage.negotiation_status nid s =>
        (st, handleNegotiationStatus storage st openConns conn uid nid s)
      | WSMessage.presence_update u b =>
        (st, handlePresenceUpdate storage st openConns conn uid u b)
      | WSMessage.request_presence us =>
        (st, handlePresenceRequest storage st conn (some uid) us)

/-- Outcome of parsing and verifying the handshake token of a new
connection: absent token, a verify throw, a payload without userId, or a
verified identity. -/
inductive TokenCheck where
  | missing
  | invalid
  | badPayload
  | valid (userId username : String)
deriving Repr, DecidableEq

/-- The connection handler: on any token failure close with 1008 before
any registration; on success register the socket, write the online status
(broadcasting presence when that write does not throw) and confirm. -/
def handleConnection (storage : Storage) (st : ServerState) (openConns : Nat → Bool)
    (conn : Nat) (tok : TokenCheck) : ServerState × List Effect :=
  match tok with
  | TokenCheck.missing => (st, [Effect.closeConn conn 1008 "Authentication token required"])
  | TokenCheck.invalid => (st, [Effect.closeConn conn 1008 "Authentication failed"])
  | TokenCheck.badPayload => (st, [Effect.closeConn conn 1008 "Invalid token payload"])
  | TokenCheck.valid userId username =>
    let userSockets2 :=
      mapSet st.userSockets userId (setAdd ((mapGet st.userSockets userId).getD []) conn)
    let presenceEffects :=
      match storage.updateUserOnlineStatus userId true with
      | Except.error _ => []
      | Except.ok _ =>
        Effect.updateUserOnlineStatus userId true ::
        broadcastPresenceUpdate userSockets2 openConns userId username true
    ({ st with userSockets := userSockets2 },
     presenceEffects ++ [Effect.sendFrame conn (OutFrame.connection_confirmed userId username)])

/-- Room sweep of cleanupWebSocket: every room containing the connection
loses it and is deleted when that removal empties it. -/
def cleanupRooms (rooms : List (String × List Nat)) (conn : Nat) : List (String × List Nat) :=
  rooms.filterMap (fun p =>
    if conn ∈ p.2 then
      let s2 := setDelete p.2 conn
      if s2 = [] then none else some (p.1, s2)
    else some p)

/-- cleanupWebSocket: unauthenticated sockets are skipped entirely;
otherwise the socket leaves userSockets, and when it was the last one for
the user the offline status is written, last-seen stamped, and (when the
user row came back) an offline presence broadcast goes out; finally every
room is swept. -/
def cleanupWebSocket (storage : Storage) (st : ServerState) (openConns : Nat → Bool)
    (conn : Nat) (wsUserId : Option String) : ServerState × List Effect :=
  match wsUserId with
  | none => (st, [])
  | some userId =>
    let step :=
      match mapGet st.userSockets userId with
      | none => (st.userSockets, ([] : List Effect))
      | some s =>
        let s2 := setDelete s conn
        if s2 = [] then
          let m := mapDelete st.userSockets userId
          match storage.updateUserOnlineStatus userId false with
          | Except.error _ => (m, [])
          | Except.ok userOpt =>
            match storage.setUserLastSeen userId with
            | Except.error _ => (m, [Effect.updateUserOnlineStatus userId false])
            | Except.ok _ =>
              match userOpt with
              | none =>
                (m, [Effect.updateUserOnlineStatus userId false, Effect.setUserLastSeen userId])
              | some user =>
                (m, Effect.updateUserOnlineStatus userId false ::
                    Effect.setUserLastSeen userId ::
                    broadcastPresenceUpdate m openConns userId (jsOr user.username "Unknown") false)
        else (mapSet st.userSockets userId s2, [])
    ({ userSockets := step.1, negotiationRooms := cleanupRooms st.negotiationRooms conn },
     step.2)

/-! Client session manager (NegotiationWebSocket). -/

/-- Client connection status values. -/
inductive ClientStatus where
  | disconnected
  | connecting
  | connected
  | reconnecting
  | errored
deriving Repr, DecidableEq

/-- Client connectionState record: status plus the retry counter. -/
structure ConnectionState where
  status : ClientStatus
  retryCount : Nat
deriving Repr, DecidableEq

/-- Client-side state of NegotiationWebSocket relevant to reconnection:
the connection state, the set of joined rooms, and the user-initiated
disconnect flag. -/
structure ClientState where
  connectionState : ConnectionState
  currentNegotiationRooms : List String
  isUserDisconnected : Bool
deriving Repr, DecidableEq

namespace NegotiationWebSocket

/-- scheduleReconnect: no-op when the user disconnected; otherwise bump
the retry counter, enter reconnecting, and arm a timer for
min(2 ^ retryCount * 1000, 30000) milliseconds. -/
def scheduleReconnect (s : ClientState) : ClientState × Option Nat :=
  if s.isUserDisconnected then (s, none)
  else
    let retryCount := s.connectionState.retryCount + 1
    let delay := min (2 ^ retryCount * 1000) 30000
    ({ s with connectionState := ⟨ClientStatus.reconnecting, retryCount⟩ }, some delay)

/-- ws.onclose: schedule a reconnect unless the user disconnected, in
which case settle in disconnected with a zero counter. -/
def onSocketClose (s : ClientState) : ClientState × Option Nat :=
  if ¬ s.isUserDisconnected then scheduleReconnect s
  else ({ s with connectionState := ⟨ClientStatus.disconnected, 0⟩ }, none)

/-- ws.onopen: enter connected with the counter reset to zero, then
resend join_negotiation for every room joined before (the status is set
to connected before the sends, so each send goes through). -/
def onSocketOpen (s : ClientState) : ClientState × List WSMessage :=
  ({ s with connectionState := ⟨ClientStatus.connected, 0⟩ },
   s.currentNegotiationRooms.map (fun nid => WSMessage.join_negotiation nid))

/-- disconnect(): user-initiated terminal transition; suppresses any
further automatic reconnection. -/
def clientDisconnect (s : ClientState) : ClientState :=
  { s with isUserDisconnected := true, connectionState := ⟨ClientStatus.disconnected, 0⟩ }

/-- joinNegotiation: remember the room, then send the join frame when
currently connected (send is a logged no-op otherwise). -/
def joinNegotiation (s : ClientState) (negotiationId : String) : ClientState × List WSMessage :=
  let rooms :=
    if negotiationId ∈ s.currentNegotiationRooms then s.currentNegotiationRooms
    else s.currentNegotiationRooms ++ [negotiationId]
  let s2 := { s with currentNegotiationRooms := rooms }
  (s2,
   if s2.connectionState.status = ClientStatus.connected
   then [WSMessage.join_negotiation negotiationId] else [])

end NegotiationWebSocket

/-! Concrete fixtures used by witnesses and counterexamples. -/

/-- A completed negotiation between buyer b1 and seller s1. -/
def negCompleted : Negotiation :=
  ⟨"n1", "p1", "b1", "s1", "completed", some "75"⟩

/-- A negotiation whose status is accepted. -/
def negAccepted : Negotiation :=
  ⟨"n2", "p1", "b1", "s1", "accepted", some "50"⟩

/-- An active negotiation. -/
def negActive : Negotiation :=
  ⟨"n3", "p1", "b1", "s1", "active", none⟩

/-- A storage snapshot holding the three fixture negotiations, with every
write succeeding. -/
def storageFix : Storage where
  getNegotiation nid :=
    if nid = "n1" then some negCompleted
    else if nid = "n2" then some negAccepted
    else if nid = "n3" then some negActive
    else none
  getUser uid := if uid = "b1" then some ⟨"b1", some "alice"⟩ else none
  updateNegotiation _ _ := Except.ok ()
  updateNegotiationStatus _ _ := Except.ok ()
  createMessage _ := Except.ok ⟨"m1", "t1"⟩
  updateUserOnlineStatus uid _ := Except.ok (some ⟨uid, some "alice"⟩)
  setUserLastSeen _ := Except.ok ()
  getUsersOnlineStatus _ := []

/-- A storage snapshot whose createMessage always throws. -/
def storageFailPersist : Storage where
  getNegotiation nid := if nid = "n3" then some negActive else none
  getUser _ := none
  updateNegotiation _ _ := Except.ok ()
  updateNegotiationStatus _ _ := Except.ok ()
  createMessage _ := Except.error ()
  updateUserOnlineStatus _ _ := Except.ok none
  setUserLastSeen _ := Except.ok ()
  getUsersOnlineStatus _ := []

/-- An empty registry state. -/
def stEmpty : ServerState := ⟨[], []⟩

/-- A registry where user u has one live connection (0) and user v has
one live connection (9). -/
def stTwoUsers : ServerState := ⟨[("u", [0]), ("v", [9])], []⟩

/-- Every connection is writable. -/
def allOpen : Nat → Bool := fun _ => true

/-! Observation helpers over effect lists. -/

/-- The frames sent, with their destination, in order. -/
def sentFrames (effects : List Effect) : List (Nat × OutFrame) :=
  effects.filterMap (fun e =>
    match e with
    | Effect.sendFrame c f => some (c, f)
    | _ => none)

/-- Whether an effect sends a negotiation_update frame to a room member. -/
def isNegotiationUpdateSend : Effect → Bool
  | Effect.sendFrame _ (OutFrame.negotiation_update ..) => true
  | _ => false

/-- Holds when no negotiation_update frame is sent before the first
createMessage persistence effect. -/
def persistedBeforeBroadcast : List Effect → Bool
  | [] => true
  | Effect.createMessage _ :: _ => true
  | e :: rest => !(isNegotiationUpdateSend e) && persistedBeforeBroadcast rest

/-! Lemmas about the registry maps and sets. -/

theorem mapGet_mapSet_self (m : List (String × List Nat)) (k : String) (v : List Nat) :
    mapGet (mapSet m k v) k = some v := by
  induction m with
  | nil => simp [mapSet, mapGet]
  | cons p rest ih =>
    by_cases h : p.1 = k
    · simp [mapSet, mapGet, h]
    · simp [mapSet, mapGet, h, ih]

theorem mapSet_mapSet_self (m : List (String × List Nat)) (k : String) (v : List Nat) :
    mapSet (mapSet m k v) k v = mapSet m k v := by
  induction m with
  | nil => simp [mapSet]
  | cons p rest ih =>
    by_cases h : p.1 = k
    · simp [mapSet, h]
    · simp [mapSet, h, ih]

theorem mapGet_mem {m : List (String × List Nat)} {k : String} {v : List Nat}
    (h : mapGet m k = some v) : (k, v) ∈ m := by
  induction m with
  | nil => simp [mapGet] at h
  | cons p rest ih =>
    rw [mapGet] at h
    by_cases hk : p.1 = k
    · rw [if_pos hk] at h
      have hp : (k, v) = p := by
        obtain ⟨a, b⟩ := p
        simp only [Option.some.injEq] at h
        simp only at hk
        simp [hk, h]
      exact List.mem_cons.mpr (Or.inl hp)
    · rw [if_neg hk] at h
      exact List.mem_cons_of_mem _ (ih h)

theorem mapGet_eq_none_of_not_mem_keys {m : List (String × List Nat)} {k : String}
    (h : k ∉ m.map Prod.fst) : mapGet m k = none := by
  induction m with
  | nil => simp [mapGet]
  | cons p rest ih =>
    have hne : p.1 ≠ k := fun he => h (by
      rw [List.map_cons]; exact List.mem_cons.mpr (Or.inl he.symm))
    have hrest : k ∉ rest.map Prod.fst := fun hm => h (by
      rw [List.map_cons]; exact List.mem_cons.mpr (Or.inr hm))
    rw [mapGet, if_neg hne]
    exact ih hrest

theorem keys_mapSet_subset {m : List (String × List Nat)} {k x : String} {v : List Nat}
    (h : x ∈ (mapSet m k v).map Prod.fst) : x ∈ m.map Prod.fst ∨ x = k := by
  induction m with
  | nil =>
    simp only [mapSet] at h
    simp at h
    exact Or.inr h
  | cons p rest ih =>
    rw [mapSet] at h
    rw [List.map_cons]
    by_cases hk : p.1 = k
    · rw [if_pos hk, List.map_cons] at h
      rcases List.mem_cons.mp h with h1 | h1
      · exact Or.inr h1
      · exact Or.inl (List.mem_cons.mpr (Or.inr h1))
    · rw [if_neg hk, List.map_cons] at h
      rcases List.mem_cons.mp h with h1 | h1
      · exact Or.inl (List.mem_cons.mpr (Or.inl h1))
      · rcases ih h1 with h2 | h2
        · exact Or.inl (List.mem_cons.mpr (Or.inr h2))
        · exact Or.inr h2

theorem keys_nodup_mapSet {m : List (String × List Nat)} {k : String} {v : List Nat}
    (h : (m.map Prod.fst).Nodup) : ((mapSet m k v).map Prod.fst).Nodup := by
  induction m with
  | nil => simp [mapSet]
  | cons p rest ih =>
    rw [List.map_cons, List.nodup_cons] at h
    by_cases hk : p.1 = k
    · rw [mapSet, if_pos hk, List.map_cons, List.nodup_cons]
      exact ⟨hk ▸ h.1, h.2⟩
    · rw [mapSet, if_neg hk, List.map_cons, List.nodup_cons]
      refine ⟨fun hmem => ?_, ih h.2⟩
      rcases keys_mapSet_subset hmem with h2 | h2
      · exact h.1 h2
      · exact hk h2

theorem mapGet_mapDelete_self {m : List (String × List Nat)} {k : String}
    (h : (m.map Prod.fst).Nodup) : mapGet (mapDelete m k) k = none := by
  induction m with
  | nil => simp [mapDelete, mapGet]
  | cons p rest ih =>
    rw [List.map_cons, List.nodup_cons] at h
    by_cases hk : p.1 = k
    · rw [mapDelete, if_pos hk]
      exact mapGet_eq_none_of_not_mem_keys (hk ▸ h.1)
    · rw [mapDelete, if_neg hk, mapGet, if_neg hk]
      exact ih h.2

theorem mem_setAdd_self (s : List Nat) (c : Nat) : c ∈ setAdd s c := by
  by_cases h : c ∈ s <;> simp [setAdd, h]

theorem setAdd_of_mem {s : List Nat} {c : Nat} (h : c ∈ s) : setAdd s c = s := by
  simp [setAdd, h]

theorem setDelete_append_self {s : List Nat} {c : Nat} (h : c ∉ s) :
    setDelete (s ++ [c]) c = s := by
  simp only [setDelete, List.filter_append]
  simp only [List.filter_cons, List.filter_nil]
  simp only [ne_eq, decide_not]
  simp [List.filter_eq_self]
  intro a ha
  exact fun he => h (he ▸ ha)

theorem count_setAdd_of_not_mem {s : List Nat} {c : Nat} (h : c ∉ s) :
    (setAdd s c).count c = 1 := by
  simp [setAdd, h, List.count_append, List.count_eq_zero_of_not_mem h]

/-! Lemmas about validateNegotiationAccess. -/

theorem validateNegotiationAccess_terminal {storage : Storage} {userId negotiationId : String}
    {neg : Negotiation} (hget : storage.getNegotiation negotiationId = some neg)
    (hterm : neg.status = "completed" ∨ neg.status = "cancelled") :
    validateNegotiationAccess storage userId negotiationId
      = AccessResult.failure "Cannot modify completed or cancelled negotiation" := by
  simp [validateNegotiationAccess, hget, hterm]

theorem validateNegotiationAccess_ok {storage : Storage} {userId negotiationId : String}
    {neg : Negotiation} (hget : storage.getNegotiation negotiationId = some neg)
    (hterm : ¬(neg.status = "completed" ∨ neg.status = "cancelled"))
    (hpart : neg.buyerId = userId ∨ neg.sellerId = userId) :
    validateNegotiationAccess storage userId negotiationId = AccessResult.success neg := by
  have hp : ¬(neg.buyerId ≠ userId ∧ neg.sellerId ≠ userId) := by
    rcases hpart with h | h <;> simp [h]
  simp [validateNegotiationAccess, hget, hterm, hp]

/-! Membership lemmas for the broadcast functions. -/

theorem mem_broadcastPresenceUpdate {m : List (String × List Nat)} {openConns : Nat → Bool}
    {userId username : String} {isOnline : Bool} {v : String} {socks : List Nat} {c : Nat}
    (hmem : (v, socks) ∈ m) (hv : v ≠ userId) (hc : c ∈ socks) (hopen : openConns c = true) :
    Effect.sendFrame c (OutFrame.presence_update userId username isOnline)
      ∈ broadcastPresenceUpdate m openConns userId username isOnline := by
  unfold broadcastPresenceUpdate
  rw [List.mem_flatMap]
  refine ⟨(v, socks), ?_, ?_⟩
  · rw [List.mem_filter]
    exact ⟨hmem, by simpa using hv⟩
  · rw [List.mem_map]
    exact ⟨c, List.mem_filter.mpr ⟨hc, hopen⟩, rfl⟩

theorem mem_broadcastToNegotiation {st : ServerState} {openConns : Nat → Bool}
    {negotiationId : String} {frame : OutFrame} {room : List Nat} {c : Nat}
    (hroom : mapGet st.negotiationRooms negotiationId = some room)
    (hc : c ∈ room) (hopen : openConns c = true) :
    Effect.sendFrame c frame ∈ broadcastToNegotiation st openConns negotiationId frame := by
  unfold broadcastToNegotiation
  rw [hroom]
  rw [List.mem_map]
  exact ⟨c, List.mem_filter.mpr ⟨hc, hopen⟩, rfl⟩

theorem closeConn_not_mem_broadcastToNegotiation {st : ServerState} {openConns : Nat → Bool}
    {negotiationId : String} {frame : OutFrame} {c k : Nat} {r : String} :
    Effect.closeConn c k r ∉ broadcastToNegotiation st openConns negotiationId frame := by
  unfold broadcastToNegotiation
  cases mapGet st.negotiationRooms negotiationId with
  | none => simp
  | some room => simp

theorem closeConn_not_mem_statusBroadcast {storage : Storage} {st : ServerState}
    {openConns : Nat → Bool} {negotiationId status changedBy : String} {c k : Nat} {r : String} :
    Effect.closeConn c k r
      ∉ broadcastNegotiationStatusUpdate storage st openConns negotiationId status changedBy := by
  unfold broadcastNegotiationStatusUpdate
  cases storage.getNegotiation negotiationId with
  | none => simp
  | some neg =>
    intro hmem
    simp only [List.mem_flatMap] at hmem
    obtain ⟨pid, _, hmem⟩ := hmem
    cases hget : mapGet st.userSockets pid with
    | none => rw [hget] at hmem; simp at hmem
    | some socks => rw [hget] at hmem; simp at hmem

/-- The three observations of claim C5 for the chat handler: persistence
precedes any broadcast, the connection is never closed, and when the
storage createMessage throws the only frame out is one error to the
sender. -/
theorem handleNegotiationMessage_props (storage : Storage) (st : ServerState)
    (openConns : Nat → Bool) (conn : Nat) (userId negotiationId content : String) :
    persistedBeforeBroadcast
      (handleNegotiationMessage storage st openConns conn userId negotiationId content) = true ∧
    (∀ c k r, Effect.closeConn c k r
      ∉ handleNegotiationMessage storage st openConns conn userId negotiationId content) ∧
    ((∀ i, storage.createMessage i = Except.error ()) →
      ∃ e, sentFrames
        (handleNegotiationMessage storage st openConns conn userId negotiationId content)
        = [(conn, OutFrame.error e)]) := by
  cases hv : validateNegotiationAccess storage userId negotiationId with
  | failure e =>
    refine ⟨?_, ?_, fun _ => ⟨e, ?_⟩⟩ <;>
      simp [handleNegotiationMessage, hv, persistedBeforeBroadcast,
        isNegotiationUpdateSend, sentFrames]
  | success neg =>
    cases hc : storage.createMessage ⟨negotiationId, userId, "chat", some content, none⟩ with
    | error u =>
      refine ⟨?_, ?_, fun _ => ⟨"Failed to send message", ?_⟩⟩ <;>
        simp [handleNegotiationMessage, hv, hc, persistedBeforeBroadcast,
          isNegotiationUpdateSend, sentFrames]
    | ok m =>
      refine ⟨?_, ?_, fun hfail => ?_⟩
      · simp [handleNegotiationMessage, hv, hc, persistedBeforeBroadcast]
      · intro c k r
        simp [handleNegotiationMessage, hv, hc]
        exact closeConn_not_mem_broadcastToNegotiation
      · rw [hfail] at hc
        exact Except.noConfusion hc

/-- The observations of claim C5 for the offer handler. -/
theorem handleNegotiationOffer_props (storage : Storage) (st : ServerState)
    (openConns : Nat → Bool) (conn : Nat) (userId negotiationId : String)
    (amount : Nat) (message : Option String) :
    persistedBeforeBroadcast
      (handleNegotiationOffer storage st openConns conn userId negotiationId amount message)
      = true ∧
    (∀ c k r, Effect.closeConn c k r
      ∉ handleNegotiationOffer storage st openConns conn userId negotiationId amount message) ∧
    ((∀ i, storage.createMessage i = Except.error ()) →
      ∃ e, sentFrames
        (handleNegotiationOffer storage st openConns conn userId negotiationId amount message)
        = [(conn, OutFrame.error e)]) := by
  cases hv : validateNegotiationAccess storage userId negotiationId with
  | failure e =>
    refine ⟨?_, ?_, fun _ => ⟨e, ?_⟩⟩ <;>
      simp [handleNegotiationOffer, hv, persistedBeforeBroadcast,
        isNegotiationUpdateSend, sentFrames]
  | success neg =>
    by_cases hb : neg.buyerId ≠ userId
    · refine ⟨?_, ?_, fun _ => ⟨"Only buyers can make offers", ?_⟩⟩ <;>
        simp [handleNegotiationOffer, hv, hb, persistedBeforeBroadcast,
          isNegotiationUpdateSend, sentFrames]
    · cases hu : storage.updateNegotiation negotiationId (toString amount) with
      | error u =>
        refine ⟨?_, ?_, fun _ => ⟨"Failed to make offer", ?_⟩⟩ <;>
          simp [handleNegotiationOffer, hv, hb, hu, persistedBeforeBroadcast,
            isNegotiationUpdateSend, sentFrames]
      | ok u =>
        cases hc : storage.createMessage
            ⟨negotiationId, userId, "offer",
             some (jsOr message ("Offered $" ++ toString amount)), some (toString amount)⟩ with
        | error w =>
          refine ⟨?_, ?_, fun _ => ⟨"Failed to make offer", ?_⟩⟩ <;>
            simp [handleNegotiationOffer, hv, hb, hu, hc, persistedBeforeBroadcast,
              isNegotiationUpdateSend, sentFrames]
        | ok m =>
          refine ⟨?_, ?_, fun hfail => ?_⟩
          · simp [handleNegotiationOffer, hv, hb, hu, hc, persistedBeforeBroadcast,
              isNegotiationUpdateSend]
          · intro c k r
            simp [handleNegotiationOffer, hv, hb, hu, hc]
            exact closeConn_not_mem_broadcastToNegotiation
          · rw [hfail] at hc
            exact Except.noConfusion hc

/-- The observations of claim C5 for the counter handler. -/
theorem handleNegotiationCounter_props (storage : Storage) (st : ServerState)
    (openConns : Nat → Bool) (conn : Nat) (userId negotiationId : String)
    (amount : Nat) (message : Option String) :
    persistedBeforeBroadcast
      (handleNegotiationCounter storage st openConns conn userId negotiationId amount message)
      = true ∧
    (∀ c k r, Effect.closeConn c k r
      ∉ handleNegotiationCounter storage st openConns conn userId negotiationId amount message) ∧
    ((∀ i, storage.createMessage i = Except.error ()) →
      ∃ e, sentFrames
        (handleNegotiationCounter storage st openConns conn userId negotiationId amount message)
        = [(conn, OutFrame.error e)]) := by
  cases hv : validateNegotiationAccess storage userId negotiationId with
  | failure e =>
    refine ⟨?_, ?_, fun _ => ⟨e, ?_⟩⟩ <;>
      simp [handleNegotiationCounter, hv, persistedBeforeBroadcast,
        isNegotiationUpdateSend, sentFrames]
  | success neg =>
    by_cases hs : neg.sellerId ≠ userId
    · refine ⟨?_, ?_, fun _ => ⟨"Only sellers can make counter offers", ?_⟩⟩ <;>
        simp [handleNegotiationCounter, hv, hs, persistedBeforeBroadcast,
          isNegotiationUpdateSend, sentFrames]
    · cases hu : storage.updateNegotiation negotiationId (toString amount) with
      | error u =>
        refine ⟨?_, ?_, fun _ => ⟨"Failed to make counter offer", ?_⟩⟩ <;>
          simp [handleNegotiationCounter, hv, hs, hu, persistedBeforeBroadcast,
            isNegotiationUpdateSend, sentFrames]
      | ok u =>
        cases hc : storage.createMessage
            ⟨negotiationId, userId, "counter",
             some (jsOr message ("Counter offer: $" ++ toString amount)),
             some (toString amount)⟩ with
        | error w =>
          refine ⟨?_, ?_, fun _ => ⟨"Failed to make counter offer", ?_⟩⟩ <;>
            simp [handleNegotiationCounter, hv, hs, hu, hc, persistedBeforeBroadcast,
              isNegotiationUpdateSend, sentFrames]
        | ok m =>
          refine ⟨?_, ?_, fun hfail => ?_⟩
          · simp [handleNegotiationCounter, hv, hs, hu, hc, persistedBeforeBroadcast,
              isNegotiationUpdateSend]
          · intro c k r
            simp [handleNegotiationCounter, hv, hs, hu, hc]
            exact closeConn_not_mem_broadcastToNegotiation
          · rw [hfail] at hc
            exact Except.noConfusion hc

/-- The observations of claim C5 for the accept handler. -/
theorem handleNegotiationAccept_props (storage : Storage) (st : ServerState)
    (openConns : Nat → Bool) (conn : Nat) (userId negotiationId : String) :
    persistedBeforeBroadcast
      (handleNegotiationAccept storage st openConns conn userId negotiationId) = true ∧
    (∀ c k r, Effect.closeConn c k r
      ∉ handleNegotiationAccept storage st openConns conn userId negotiationId) ∧
    ((∀ i, storage.createMessage i = Except.error ()) →
      ∃ e, sentFrames (handleNegotiationAccept storage st openConns conn userId negotiationId)
        = [(conn, OutFrame.error e)]) := by
  cases hv : validateNegotiationAccess storage userId negotiationId with
  | failure e =>
    refine ⟨?_, ?_, fun _ => ⟨e, ?_⟩⟩ <;>
      simp [handleNegotiationAccept, hv, persistedBeforeBroadcast,
        isNegotiationUpdateSend, sentFrames]
  | success neg =>
    cases hu : storage.updateNegotiationStatus negotiationId "completed" with
    | error u =>
      refine ⟨?_, ?_, fun _ => ⟨"Failed to accept offer", ?_⟩⟩ <;>
        simp [handleNegotiationAccept, hv, hu, persistedBeforeBroadcast,
          isNegotiationUpdateSend, sentFrames]
    | ok u =>
      cases hc : storage.createMessage
          ⟨negotiationId, userId, "accept", some "Offer accepted!", none⟩ with
      | error w =>
        refine ⟨?_, ?_, fun _ => ⟨"Failed to accept offer", ?_⟩⟩ <;>
          simp [handleNegotiationAccept, hv, hu, hc, persistedBeforeBroadcast,
            isNegotiationUpdateSend, sentFrames]
      | ok m =>
        refine ⟨?_, ?_, fun hfail => ?_⟩
        · simp [handleNegotiationAccept, hv, hu, hc, persistedBeforeBroadcast,
            isNegotiationUpdateSend]
        · intro c k r
          simp [handleNegotiationAccept, hv, hu, hc]
          exact closeConn_not_mem_broadcastToNegotiation
        · rw [hfail] at hc
          exact Except.noConfusion hc

/-- The observations of claim C5 for the reject handler. -/
theorem handleNegotiationReject_props (storage : Storage) (st : ServerState)
    (openConns : Nat → Bool) (conn : Nat) (userId negotiationId : String)
    (message : Option String) :
    persistedBeforeBroadcast
      (handleNegotiationReject storage st openConns conn userId negotiationId message) = true ∧
    (∀ c k r, Effect.closeConn c k r
      ∉ handleNegotiationReject storage st openConns conn userId negotiationId message) ∧
    ((∀ i, storage.createMessage i = Except.error ()) →
      ∃ e, sentFrames
        (handleNegotiationReject storage st openConns conn userId negotiationId message)
        = [(conn, OutFrame.error e)]) := by
  cases hv : validateNegotiationAccess storage userId negotiationId with
  | failure e =>
    refine ⟨?_, ?_, fun _ => ⟨e, ?_⟩⟩ <;>
      simp [handleNegotiationReject, hv, persistedBeforeBroadcast,
        isNegotiationUpdateSend, sentFrames]
  | success neg =>
    cases hc : storage.createMessage
        ⟨negotiationId, userId, "reject", some (jsOr message "Offer rejected"), none⟩ with
    | error w =>
      refine ⟨?_, ?_, fun _ => ⟨"Failed to reject offer", ?_⟩⟩ <;>
        simp [handleNegotiationReject, hv, hc, persistedBeforeBroadcast,
          isNegotiationUpdateSend, sentFrames]
    | ok m =>
      refine ⟨?_, ?_, fun hfail => ?_⟩
      · simp [handleNegotiationReject, hv, hc, persistedBeforeBroadcast]
      · intro c k r
        simp [handleNegotiationReject, hv, hc]
        exact closeConn_not_mem_broadcastToNegotiation
      · rw [hfail] at hc
        exact Except.noConfusion hc

/-- The observations of claim C5 for the status handler. -/
theorem handleNegotiationStatus_props (storage : Storage) (st : ServerState)
    (openConns : Nat → Bool) (conn : Nat) (userId negotiationId status : String) :
    persistedBeforeBroadcast
      (handleNegotiationStatus storage st openConns conn userId negotiationId status) = true ∧
    (∀ c k r, Effect.closeConn c k r
      ∉ handleNegotiationStatus storage st openConns conn userId negotiationId status) ∧
    ((∀ i, storage.createMessage i = Except.error ()) →
      ∃ e, sentFrames
        (handleNegotiationStatus storage st openConns conn userId negotiationId status)
        = [(conn, OutFrame.error e)]) := by
  cases hv : validateNegotiationAccess storage userId negotiationId with
  | failure e =>
    refine ⟨?_, ?_, fun _ => ⟨e, ?_⟩⟩ <;>
      simp [handleNegotiationStatus, hv, persistedBeforeBroadcast,
        isNegotiationUpdateSend, sentFrames]
  | success neg =>
    cases hu : storage.updateNegotiationStatus negotiationId status with
    | error u =>
      refine ⟨?_, ?_, fun _ => ⟨"Failed to update status", ?_⟩⟩ <;>
        simp [handleNegotiationStatus, hv, hu, persistedBeforeBroadcast,
          isNegotiationUpdateSend, sentFrames]
    | ok u =>
      cases hc : storage.createMessage
          ⟨negotiationId, userId, "status",
           some ("Negotiation status changed to: " ++ status), none⟩ with
      | error w =>
        refine ⟨?_, ?_, fun _ => ⟨"Failed to update status", ?_⟩⟩ <;>
          simp [handleNegotiationStatus, hv, hu, hc, persistedBeforeBroadcast,
            isNegotiationUpdateSend, sentFrames]
      | ok m =>
        refine ⟨?_, ?_, fun hfail => ?_⟩
        · simp [handleNegotiationStatus, hv, hu, hc, persistedBeforeBroadcast,
            isNegotiationUpdateSend]
        · intro c k r
          simp [handleNegotiationStatus, hv, hu, hc]
          exact ⟨closeConn_not_mem_broadcastToNegotiation, closeConn_not_mem_statusBroadcast⟩
        · rw [hfail] at hc
          exact Except.noConfusion hc

/-! Claim theorems. -/

/-- C1: every inbound mutating frame (chat, offer, counter, accept,
reject, status) on a negotiation whose status is completed or cancelled is
answered with exactly one terminal-negotiation error frame to the sender:
the effect list is that single frame, so no storage write and no broadcast
occurs. -/
theorem terminal_negotiation_frames_refused
    (storage : Storage) (st : ServerState) (openConns : Nat → Bool) (conn : Nat)
    (userId negotiationId : String) (neg : Negotiation)
    (hget : storage.getNegotiation negotiationId = some neg)
    (hterm : neg.status = "completed" ∨ neg.status = "cancelled") :
    (∀ content, handleNegotiationMessage storage st openConns conn userId negotiationId content
      = [Effect.sendFrame conn
          (OutFrame.error "Cannot modify completed or cancelled negotiation")]) ∧
    (∀ amount message,
      handleNegotiationOffer storage st openConns conn userId negotiationId amount message
      = [Effect.sendFrame conn
          (OutFrame.error "Cannot modify completed or cancelled negotiation")]) ∧
    (∀ amount message,
      handleNegotiationCounter storage st openConns conn userId negotiationId amount message
      = [Effect.sendFrame conn
          (OutFrame.error "Cannot modify completed or cancelled negotiation")]) ∧
    (handleNegotiationAccept storage st openConns conn userId negotiationId
      = [Effect.sendFrame conn
          (OutFrame.error "Cannot modify completed or cancelled negotiation")]) ∧
    (∀ message, handleNegotiationReject storage st openConns conn userId negotiationId message
      = [Effect.sendFrame conn
          (OutFrame.error "Cannot modify completed or cancelled negotiation")]) ∧
    (∀ status, handleNegotiationStatus storage st openConns conn userId negotiationId status
      = [Effect.sendFrame conn
          (OutFrame.error "Cannot modify completed or cancelled negotiation")]) := by
  have hv := @validateNegotiationAccess_terminal _ userId _ _ hget hterm
  refine ⟨?_, ?_, ?_, ?_, ?_, ?_⟩ <;>
    · intros
      simp [handleNegotiationMessage, handleNegotiationOffer, handleNegotiationCounter,
        handleNegotiationAccept, handleNegotiationReject, handleNegotiationStatus, hv]

/-- C1 witness: an offer from the buyer on the completed fixture
negotiation yields exactly the terminal-negotiation error frame. -/
theorem terminal_negotiation_frames_refused_witness :
    handleNegotiationOffer storageFix stEmpty allOpen 0 "b1" "n1" 100 none
      = [Effect.sendFrame 0
          (OutFrame.error "Cannot modify completed or cancelled negotiation")] :=
  (terminal_negotiation_frames_refused storageFix stEmpty allOpen 0 "b1" "n1"
    negCompleted rfl (Or.inl rfl)).2.1 100 none

/-- C2 counterexample: a buyer offer on a negotiation whose status is
accepted is not refused; the current offer is written, the offer row
persisted, and (with an empty room) nothing else happens.  This refutes
the claim that accepted and rejected are terminal for offer mutation. -/
theorem offer_on_accepted_negotiation_succeeds :
    negAccepted.status = "accepted" ∧
    handleNegotiationOffer storageFix stEmpty allOpen 0 "b1" "n2" 100 none
      = [Effect.updateNegotiationOffer "n2" "100",
         Effect.createMessage ⟨"n2", "b1", "offer", some "Offered $100", some "100"⟩] := by
  constructor
  · rfl
  · rfl

/-- C2 amended: an offer is accepted (current offer written, offer row
persisted, update broadcast) exactly when the sender is the buyer and the
status is neither completed nor cancelled (a status of accepted or
rejected does not block it); on a completed or cancelled negotiation it is
refused with the terminal error, and a sender other than the buyer is
refused with an error frame. -/
theorem offer_acceptance_policy
    (storage : Storage) (st : ServerState) (openConns : Nat → Bool) (conn : Nat)
    (userId negotiationId : String) (amount : Nat) (message : Option String)
    (neg : Negotiation) (hget : storage.getNegotiation negotiationId = some neg) :
    ((neg.status = "completed" ∨ neg.status = "cancelled") →
      handleNegotiationOffer storage st openConns conn userId negotiationId amount message
        = [Effect.sendFrame conn
            (OutFrame.error "Cannot modify completed or cancelled negotiation")]) ∧
    (¬(neg.status = "completed" ∨ neg.status = "cancelled") → neg.buyerId ≠ userId →
      ∃ e, handleNegotiationOffer storage st openConns conn userId negotiationId amount message
        = [Effect.sendFrame conn (OutFrame.error e)]) ∧
    (¬(neg.status = "completed" ∨ neg.status = "cancelled") → neg.buyerId = userId →
      ∀ m, storage.updateNegotiation negotiationId (toString amount) = Except.ok () →
        storage.createMessage
            ⟨negotiationId, userId, "offer",
             some (jsOr message ("Offered $" ++ toString amount)), some (toString amount)⟩
          = Except.ok m →
        handleNegotiationOffer storage st openConns conn userId negotiationId amount message
          = Effect.updateNegotiationOffer negotiationId (toString amount) ::
            Effect.createMessage
              ⟨negotiationId, userId, "offer",
               some (jsOr message ("Offered $" ++ toString amount)), some (toString amount)⟩ ::
            broadcastToNegotiation st openConns negotiationId
              (OutFrame.negotiation_update negotiationId m.id userId
                (usernameOrUnknown (storage.getUser userId)) "offer"
                (some (jsOr message ("Offered $" ++ toString amount))) (some amount)
                m.createdAt)) := by
  refine ⟨?_, ?_, ?_⟩
  · intro hterm
    have hv := @validateNegotiationAccess_terminal _ userId _ _ hget hterm
    simp [handleNegotiationOffer, hv]
  · intro hterm hbuy
    by_cases hsell : neg.sellerId = userId
    · have hv := validateNegotiationAccess_ok hget hterm (Or.inr hsell)
      exact ⟨"Only buyers can make offers", by simp [handleNegotiationOffer, hv, hbuy]⟩
    · have hv : validateNegotiationAccess storage userId negotiationId
          = AccessResult.failure "Access denied to this negotiation" := by
        simp [validateNegotiationAccess, hget, hterm, hbuy, hsell]
      exact ⟨"Access denied to this negotiation", by simp [handleNegotiationOffer, hv]⟩
  · intro hterm hbuy m hupd hcreate
    have hv := validateNegotiationAccess_ok hget hterm (Or.inl hbuy)
    simp [handleNegotiationOffer, hv, hbuy, hupd, hcreate]

/-- C2 witness: the amended statement at the accepted fixture negotiation,
with the buyer offering 100: the success branch fires. -/
theorem offer_acceptance_policy_witness :
    handleNegotiationOffer storageFix stEmpty allOpen 0 "b1" "n2" 100 none
      = Effect.updateNegotiationOffer "n2" (toString 100) ::
        Effect.createMessage
          ⟨"n2", "b1", "offer",
           some (jsOr none ("Offered $" ++ toString 100)), some (toString 100)⟩ ::
        broadcastToNegotiation stEmpty allOpen "n2"
          (OutFrame.negotiation_update "n2" "m1" "b1"
            (usernameOrUnknown (storageFix.getUser "b1")) "offer"
            (some (jsOr none ("Offered $" ++ toString 100))) (some 100) "t1") :=
  (offer_acceptance_policy storageFix stEmpty allOpen 0 "b1" "n2" 100 none
    negAccepted rfl).2.2 (by decide) rfl ⟨"m1", "t1"⟩ rfl rfl

/-- C3: a connection whose handshake token is absent, fails verification,
or has a payload without a user id leaves the registry untouched, receives
no frame at all (in particular no connection_confirmed), and is closed
with the authentication close code 1008. -/
theorem unauthenticated_connection_rejected
    (storage : Storage) (st : ServerState) (openConns : Nat → Bool) (conn : Nat)
    (tok : TokenCheck) (h : ∀ userId username, tok ≠ TokenCheck.valid userId username) :
    (handleConnection storage st openConns conn tok).1 = st ∧
    (∃ reason, (handleConnection storage st openConns conn tok).2
      = [Effect.closeConn conn 1008 reason]) ∧
    (∀ c f, Effect.sendFrame c f ∉ (handleConnection storage st openConns conn tok).2) := by
  cases tok with
  | missing =>
    exact ⟨rfl, ⟨"Authentication token required", rfl⟩, by simp [handleConnection]⟩
  | invalid =>
    exact ⟨rfl, ⟨"Authentication failed", rfl⟩, by simp [handleConnection]⟩
  | badPayload =>
    exact ⟨rfl, ⟨"Invalid token payload", rfl⟩, by simp [handleConnection]⟩
  | valid u n => exact absurd rfl (h u n)

/-- C3 witness: a handshake without a token at a concrete connection. -/
theorem unauthenticated_connection_rejected_witness :
    (handleConnection storageFix stEmpty allOpen 5 TokenCheck.missing).1 = stEmpty ∧
    (∃ reason, (handleConnection storageFix stEmpty allOpen 5 TokenCheck.missing).2
      = [Effect.closeConn 5 1008 reason]) ∧
    (∀ c f, Effect.sendFrame c f
      ∉ (handleConnection storageFix stEmpty allOpen 5 TokenCheck.missing).2) :=
  unauthenticated_connection_rejected storageFix stEmpty allOpen 5 TokenCheck.missing
    (fun _ _ h => TokenCheck.noConfusion h)

/-- C5: for every negotiation-mutating frame handler, the message row
persistence effect precedes any negotiation_update broadcast frame, the
handler never closes the connection, and when the storage createMessage
collaborator throws, the only frame emitted is a single error frame to
the sending connection (hence no broadcast reaches the room). -/
theorem persistence_before_broadcast_and_failure_isolated
    (storage : Storage) (st : ServerState) (openConns : Nat → Bool) (conn : Nat)
    (userId negotiationId content status : String) (amount : Nat) (message : Option String) :
    (persistedBeforeBroadcast
        (handleNegotiationMessage storage st openConns conn userId negotiationId content) = true ∧
     (∀ c k r, Effect.closeConn c k r
       ∉ handleNegotiationMessage storage st openConns conn userId negotiationId content) ∧
     ((∀ i, storage.createMessage i = Except.error ()) →
       ∃ e, sentFrames
         (handleNegotiationMessage storage st openConns conn userId negotiationId content)
         = [(conn, OutFrame.error e)])) ∧
    (persistedBeforeBroadcast
        (handleNegotiationOffer storage st openConns conn userId negotiationId amount message)
        = true ∧
     (∀ c k r, Effect.closeConn c k r
       ∉ handleNegotiationOffer storage st openConns conn userId negotiationId amount message) ∧
     ((∀ i, storage.createMessage i = Except.error ()) →
       ∃ e, sentFrames
         (handleNegotiationOffer storage st openConns conn userId negotiationId amount message)
         = [(conn, OutFrame.error e)])) ∧
    (persistedBeforeBroadcast
        (handleNegotiationCounter storage st openConns conn userId negotiationId amount message)
        = true ∧
     (∀ c k r, Effect.closeConn c k r
       ∉ handleNegotiationCounter storage st openConns conn userId negotiationId amount message) ∧
     ((∀ i, storage.createMessage i = Except.error ()) →
       ∃ e, sentFrames
         (handleNegotiationCounter storage st openConns conn userId negotiationId amount message)
         = [(conn, OutFrame.error e)])) ∧
    (persistedBeforeBroadcast
        (handleNegotiationAccept storage st openConns conn userId negotiationId) = true ∧
     (∀ c k r, Effect.closeConn c k r
       ∉ handleNegotiationAccept storage st openConns conn userId negotiationId) ∧
     ((∀ i, storage.createMessage i = Except.error ()) →
       ∃ e, sentFrames (handleNegotiationAccept storage st openConns conn userId negotiationId)
         = [(conn, OutFrame.error e)])) ∧
    (persistedBeforeBroadcast
        (handleNegotiationReject storage st openConns conn userId negotiationId message)
        = true ∧
     (∀ c k r, Effect.closeConn c k r
       ∉ handleNegotiationReject storage st openConns conn userId negotiationId message) ∧
     ((∀ i, storage.createMessage i = Except.error ()) →
       ∃ e, sentFrames
         (handleNegotiationReject storage st openConns conn userId negotiationId message)
         = [(conn, OutFrame.error e)])) ∧
    (persistedBeforeBroadcast
        (handleNegotiationStatus storage st openConns conn userId negotiationId status)
        = true ∧
     (∀ c k r, Effect.closeConn c k r
       ∉ handleNegotiationStatus storage st openConns conn userId negotiationId status) ∧
     ((∀ i, storage.createMessage i = Except.error ()) →
       ∃ e, sentFrames
         (handleNegotiationStatus storage st openConns conn userId negotiationId status)
         = [(conn, OutFrame.error e)])) :=
  ⟨handleNegotiationMessage_props storage st openConns conn userId negotiationId content,
   handleNegotiationOffer_props storage st openConns conn userId negotiationId amount message,
   handleNegotiationCounter_props storage st openConns conn userId negotiationId amount message,
   handleNegotiationAccept_props storage st openConns conn userId negotiationId,
   handleNegotiationReject_props storage st openConns conn userId negotiationId message,
   handleNegotiationStatus_props storage st openConns conn userId negotiationId status⟩

/-- C5 witness: with a storage whose createMessage always throws, a chat
on the active fixture negotiation yields exactly one error frame to the
sender. -/
theorem persistence_failure_isolated_witness :
    ∃ e, sentFrames (handleNegotiationMessage storageFailPersist stEmpty allOpen 0 "b1" "n3" "hi")
      = [(0, OutFrame.error e)] :=
  (persistence_before_broadcast_and_failure_isolated storageFailPersist stEmpty allOpen 0
    "b1" "n3" "hi" "active" 10 none).1.2.2 (fun _ => rfl)

/-- C4 counterexample: user u already holds one live connection (0), so a
second authenticated connection (1) is the interior transition 1 to 2,
yet the other user v (socket 9) still receives an online presence_update
broadcast.  This refutes the claim that no presence broadcast is emitted
on interior transitions. -/
theorem presence_broadcast_on_interior_transition :
    mapGet stTwoUsers.userSockets "u" = some [0] ∧
    Effect.sendFrame 9 (OutFrame.presence_update "u" "alice" true)
      ∈ (handleConnection storageFix stTwoUsers allOpen 1 (TokenCheck.valid "u" "alice")).2 := by
  constructor
  · rfl
  · decide

/-- C4 amended: the online presence broadcast is emitted on every
successful registration whose online-status write succeeds, regardless of
the prior connection count (so also on interior transitions such as 1 to
2); the offline broadcast is emitted exactly when a removal leaves the
user with zero connections: an interior removal produces no effect at
all, while removing the last connection writes the offline status and
last-seen stamp and broadcasts offline presence to the remaining users. -/
theorem presence_broadcast_policy
    (storage : Storage) (st : ServerState) (openConns : Nat → Bool) (conn : Nat)
    (userId username : String) :
    (∀ user, storage.updateUserOnlineStatus userId true = Except.ok user →
      ∀ v socks c,
        (v, socks) ∈ (handleConnection storage st openConns conn
          (TokenCheck.valid userId username)).1.userSockets →
        v ≠ userId → c ∈ socks → openConns c = true →
        Effect.sendFrame c (OutFrame.presence_update userId username true)
          ∈ (handleConnection storage st openConns conn (TokenCheck.valid userId username)).2) ∧
    (∀ s, mapGet st.userSockets userId = some s → setDelete s conn ≠ [] →
      (cleanupWebSocket storage st openConns conn (some userId)).2 = []) ∧
    (∀ s u2, mapGet st.userSockets userId = some s → setDelete s conn = [] →
      storage.updateUserOnlineStatus userId false = Except.ok (some u2) →
      storage.setUserLastSeen userId = Except.ok () →
      (cleanupWebSocket storage st openConns conn (some userId)).2
        = Effect.updateUserOnlineStatus userId false ::
          Effect.setUserLastSeen userId ::
          broadcastPresenceUpdate (mapDelete st.userSockets userId) openConns userId
            (jsOr u2.username "Unknown") false) := by
  refine ⟨?_, ?_, ?_⟩
  · intro user hok v socks c hmem hv hc hopen
    have hmem2 : (v, socks) ∈
        mapSet st.userSockets userId (setAdd ((mapGet st.userSockets userId).getD []) conn) := by
      simpa [handleConnection] using hmem
    have hb := @mem_broadcastPresenceUpdate _ openConns userId username true _ _ _
      hmem2 hv hc hopen
    simp [handleConnection, hok]
    exact hb
  · intro s hs hne
    simp [cleanupWebSocket, hs, hne]
  · intro s u2 hs hdel hupd hseen
    simp [cleanupWebSocket, hs, hdel, hupd, hseen]

/-- C4 witness: removing the last connection of user v in the two-user
fixture emits the offline status write, the last-seen stamp, and the
offline presence broadcast to the remaining users. -/
theorem presence_broadcast_policy_witness :
    (cleanupWebSocket storageFix stTwoUsers allOpen 9 (some "v")).2
      = Effect.updateUserOnlineStatus "v" false ::
        Effect.setUserLastSeen "v" ::
        broadcastPresenceUpdate (mapDelete stTwoUsers.userSockets "v") allOpen "v"
          (jsOr (some "alice") "Unknown") false :=
  (presence_broadcast_policy storageFix stTwoUsers allOpen 9 "v" "alice").2.2
    [9] ⟨"v", some "alice"⟩ rfl rfl rfl rfl

/-- C6: a frame whose top-level type is unknown is answered with the
error frame "Invalid message format": schema validation throws on the
unknown discriminator before the dispatch switch runs, so the switch
default branch that would reply with an unknown-message-type text is
unreachable, and the reply differs from the one the claim states. -/
theorem unknown_message_type_reply :
    handleWebSocketMessage storageFix stEmpty allOpen 0 (some "u") { type := "bogus" }
      = (stEmpty, [Effect.sendFrame 0 (OutFrame.error "Invalid message format")]) ∧
    OutFrame.error "Invalid message format"
      ≠ OutFrame.error "Unknown message type: bogus" := by
  exact ⟨rfl, by decide⟩

/-- C7: for a participant connection not yet in the room, joining twice
leaves the registry exactly as after one join, the room then holds the
connection exactly once, and one leave removes it entirely, deleting the
room when the connection was its only member. -/
theorem join_idempotent_leave_cancels
    (storage : Storage) (st : ServerState) (conn : Nat) (uid nid : String) (neg : Negotiation)
    (hnid : nid ≠ "") (huid : uid ≠ "")
    (hget : storage.getNegotiation nid = some neg)
    (hpart : neg.buyerId = uid ∨ neg.sellerId = uid)
    (hnotin : conn ∉ (mapGet st.negotiationRooms nid).getD [])
    (hkeys : (st.negotiationRooms.map Prod.fst).Nodup) :
    (handleJoinNegotiation storage
        (handleJoinNegotiation storage st conn (some uid) (some nid)).1 conn
        (some uid) (some nid)).1
      = (handleJoinNegotiation storage st conn (some uid) (some nid)).1 ∧
    mapGet (handleJoinNegotiation storage st conn (some uid) (some nid)).1.negotiationRooms nid
      = some ((mapGet st.negotiationRooms nid).getD [] ++ [conn]) ∧
    ((mapGet st.negotiationRooms nid).getD [] ++ [conn]).count conn = 1 ∧
    ((mapGet st.negotiationRooms nid).getD [] = [] →
      mapGet (handleLeaveNegotiation
          (handleJoinNegotiation storage st conn (some uid) (some nid)).1 conn
          (some nid)).1.negotiationRooms nid = none) ∧
    ((mapGet st.negotiationRooms nid).getD [] ≠ [] →
      mapGet (handleLeaveNegotiation
          (handleJoinNegotiation storage st conn (some uid) (some nid)).1 conn
          (some nid)).1.negotiationRooms nid
        = some ((mapGet st.negotiationRooms nid).getD [])) := by
  have hcond : ¬(nid = "" ∨ uid = "") := by simp [hnid, huid]
  have hp : ¬(neg.buyerId ≠ uid ∧ neg.sellerId ≠ uid) := by
    rcases hpart with h | h <;> simp [h]
  have hadd : setAdd ((mapGet st.negotiationRooms nid).getD []) conn
      = (mapGet st.negotiationRooms nid).getD [] ++ [conn] := by
    simp [setAdd, hnotin]
  have hjoin : (handleJoinNegotiation storage st conn (some uid) (some nid)).1
      = { st with negotiationRooms :=
            mapSet st.negotiationRooms nid ((mapGet st.negotiationRooms nid).getD [] ++ [conn]) } := by
    simp [handleJoinNegotiation, hcond, hget, hp, hadd]
  have hget1 : mapGet (handleJoinNegotiation storage st conn
      (some uid) (some nid)).1.negotiationRooms nid
      = some ((mapGet st.negotiationRooms nid).getD [] ++ [conn]) := by
    rw [hjoin]
    exact mapGet_mapSet_self _ _ _
  have hdel : setDelete ((mapGet st.negotiationRooms nid).getD [] ++ [conn]) conn
      = (mapGet st.negotiationRooms nid).getD [] := setDelete_append_self hnotin
  refine ⟨?_, hget1, ?_, ?_, ?_⟩
  · have hadd3 : setAdd ((mapGet st.negotiationRooms nid).getD [] ++ [conn]) conn
        = (mapGet st.negotiationRooms nid).getD [] ++ [conn] :=
      setAdd_of_mem (by simp)
    rw [hjoin]
    simp [handleJoinNegotiation, hcond, hget, hp, mapGet_mapSet_self, hadd3,
      mapSet_mapSet_self]
  · rw [List.count_append, List.count_eq_zero_of_not_mem hnotin]
    simp
  · intro hempty
    have hkeys1 : (((handleJoinNegotiation storage st conn
        (some uid) (some nid)).1.negotiationRooms).map Prod.fst).Nodup := by
      rw [hjoin]
      exact keys_nodup_mapSet hkeys
    have hdelE : setDelete ((mapGet st.negotiationRooms nid).getD [] ++ [conn]) conn = [] := by
      rw [hdel]
      exact hempty
    simp [handleLeaveNegotiation, hnid, hget1, hdelE]
    exact mapGet_mapDelete_self hkeys1
  · intro hne
    simp [handleLeaveNegotiation, hnid, hget1, hdel, hne]
    exact mapGet_mapSet_self _ _ _

/-- C7 witness: the buyer connection 4 joins the active fixture
negotiation twice in the empty registry; the second join changes nothing,
the room holds it once, and the following leave deletes the room. -/
theorem join_idempotent_leave_cancels_witness :
    (handleJoinNegotiation storageFix
        (handleJoinNegotiation storageFix stEmpty 4 (some "b1") (some "n3")).1 4
        (some "b1") (some "n3")).1
      = (handleJoinNegotiation storageFix stEmpty 4 (some "b1") (some "n3")).1 ∧
    mapGet (handleJoinNegotiation storageFix stEmpty 4
        (some "b1") (some "n3")).1.negotiationRooms "n3"
      = some ((mapGet stEmpty.negotiationRooms "n3").getD [] ++ [4]) ∧
    ((mapGet stEmpty.negotiationRooms "n3").getD [] ++ [4]).count 4 = 1 ∧
    ((mapGet stEmpty.negotiationRooms "n3").getD [] = [] →
      mapGet (handleLeaveNegotiation
          (handleJoinNegotiation storageFix stEmpty 4 (some "b1") (some "n3")).1 4
          (some "n3")).1.negotiationRooms "n3" = none) ∧
    ((mapGet stEmpty.negotiationRooms "n3").getD [] ≠ [] →
      mapGet (handleLeaveNegotiation
          (handleJoinNegotiation storageFix stEmpty 4 (some "b1") (some "n3")).1 4
          (some "n3")).1.negotiationRooms "n3"
        = some ((mapGet stEmpty.negotiationRooms "n3").getD [])) :=
  join_idempotent_leave_cancels storageFix stEmpty 4 "b1" "n3" negActive
    (by decide) (by decide) rfl (Or.inl rfl) (by decide) (by decide)

/-- C8: on an unexpected close while not user-disconnected the client
enters reconnecting, bumps the retry counter to n and arms the retry
timer for min(1000 x 2 to the n, 30000) milliseconds; on a successful
open it resets the counter to zero, enters connected, and resends
join_negotiation for every previously joined room. -/
theorem reconnect_backoff_and_replay (s : ClientState)
    (h : s.isUserDisconnected = false) :
    ((NegotiationWebSocket.onSocketClose s).1.connectionState.retryCount
      = s.connectionState.retryCount + 1) ∧
    ((NegotiationWebSocket.onSocketClose s).1.connectionState.status
      = ClientStatus.reconnecting) ∧
    ((NegotiationWebSocket.onSocketClose s).2
      = some (min (2 ^ (s.connectionState.retryCount + 1) * 1000) 30000)) ∧
    ((NegotiationWebSocket.onSocketOpen s).1.connectionState.retryCount = 0) ∧
    ((NegotiationWebSocket.onSocketOpen s).1.connectionState.status
      = ClientStatus.connected) ∧
    ((NegotiationWebSocket.onSocketOpen s).2
      = s.currentNegotiationRooms.map (fun nid => WSMessage.join_negotiation nid)) := by
  refine ⟨?_, ?_, ?_, ?_, ?_, ?_⟩ <;>
    simp [NegotiationWebSocket.onSocketClose, NegotiationWebSocket.scheduleReconnect,
      NegotiationWebSocket.onSocketOpen, h]

/-- C8 witness: a client with three failed attempts and one joined room
loses its socket unexpectedly, then reconnects. -/
theorem reconnect_backoff_and_replay_witness :
    ((NegotiationWebSocket.onSocketClose ⟨⟨ClientStatus.connected, 3⟩, ["n3"], false⟩).1.connectionState.retryCount
      = (⟨⟨ClientStatus.connected, 3⟩, ["n3"], false⟩ : ClientState).connectionState.retryCount + 1) ∧
    ((NegotiationWebSocket.onSocketClose ⟨⟨ClientStatus.connected, 3⟩, ["n3"], false⟩).1.connectionState.status
      = ClientStatus.reconnecting) ∧
    ((NegotiationWebSocket.onSocketClose ⟨⟨ClientStatus.connected, 3⟩, ["n3"], false⟩).2
      = some (min (2 ^ ((⟨⟨ClientStatus.connected, 3⟩, ["n3"], false⟩ : ClientState).connectionState.retryCount + 1) * 1000) 30000)) ∧
    ((NegotiationWebSocket.onSocketOpen ⟨⟨ClientStatus.connected, 3⟩, ["n3"], false⟩).1.connectionState.retryCount = 0) ∧
    ((NegotiationWebSocket.onSocketOpen ⟨⟨ClientStatus.connected, 3⟩, ["n3"], false⟩).1.connectionState.status
      = ClientStatus.connected) ∧
    ((NegotiationWebSocket.onSocketOpen ⟨⟨ClientStatus.connected, 3⟩, ["n3"], false⟩).2
      = (⟨⟨ClientStatus.connected, 3⟩, ["n3"], false⟩ : ClientState).currentNegotiationRooms.map
          (fun nid => WSMessage.join_negotiation nid)) :=
  reconnect_backoff_and_replay ⟨⟨ClientStatus.connected, 3⟩, ["n3"], false⟩ rfl

/-- C9 counterexample: a chat from the buyer on the completed fixture
negotiation is refused with the terminal error and no message row is
persisted, refuting the claim that chat is still recorded for audit on a
terminal negotiation. -/
theorem chat_on_completed_negotiation_not_persisted :
    handleNegotiationMessage storageFix stEmpty allOpen 0 "b1" "n1" "audit note"
      = [Effect.sendFrame 0
          (OutFrame.error "Cannot modify completed or cancelled negotiation")] ∧
    (∀ i, Effect.createMessage i
      ∉ handleNegotiationMessage storageFix stEmpty allOpen 0 "b1" "n1" "audit note") := by
  have h : handleNegotiationMessage storageFix stEmpty allOpen 0 "b1" "n1" "audit note"
      = [Effect.sendFrame 0
          (OutFrame.error "Cannot modify completed or cancelled negotiation")] := rfl
  refine ⟨h, ?_⟩
  intro i hmem
  rw [h] at hmem
  simp at hmem

/-- C9 amended: on a negotiation whose status is completed or cancelled,
chat and status frames are refused exactly like offer frames and nothing
is persisted; chat (and status) rows are persisted only while the status
is outside that set, which does include accepted and rejected. -/
theorem audit_message_persistence_policy
    (storage : Storage) (st : ServerState) (openConns : Nat → Bool) (conn : Nat)
    (userId negotiationId content status : String) (neg : Negotiation)
    (hget : storage.getNegotiation negotiationId = some neg)
    (hpart : neg.buyerId = userId ∨ neg.sellerId = userId) :
    ((neg.status = "completed" ∨ neg.status = "cancelled") →
      (∀ i, Effect.createMessage i
        ∉ handleNegotiationMessage storage st openConns conn userId negotiationId content) ∧
      (∀ i, Effect.createMessage i
        ∉ handleNegotiationStatus storage st openConns conn userId negotiationId status)) ∧
    (¬(neg.status = "completed" ∨ neg.status = "cancelled") →
      ∀ m, storage.createMessage ⟨negotiationId, userId, "chat", some content, none⟩
          = Except.ok m →
        Effect.createMessage ⟨negotiationId, userId, "chat", some content, none⟩
          ∈ handleNegotiationMessage storage st openConns conn userId negotiationId content) := by
  refine ⟨?_, ?_⟩
  · intro hterm
    have hv := @validateNegotiationAccess_terminal _ userId _ _ hget hterm
    constructor <;>
      · intro i hmem
        simp [handleNegotiationMessage, handleNegotiationStatus, hv] at hmem
  · intro hterm m hc
    have hv := validateNegotiationAccess_ok hget hterm hpart
    simp [handleNegotiationMessage, hv, hc]

/-- C9 witness: the amended statement at the accepted fixture negotiation:
a buyer chat row is persisted there. -/
theorem audit_message_persistence_policy_witness :
    Effect.createMessage ⟨"n2", "b1", "chat", some "hello", none⟩
      ∈ handleNegotiationMessage storageFix stEmpty allOpen 0 "b1" "n2" "hello" :=
  (audit_message_persistence_policy storageFix stEmpty allOpen 0 "b1" "n2" "hello"
    "active" negAccepted rfl (Or.inl rfl)).2 (by decide) ⟨"m1", "t1"⟩ rfl

/-- C10: join_negotiation performs no terminal-status check: whatever the
status of an existing negotiation, a participant connection is added to
the room, receives negotiation_joined, and then receives every broadcast
to that room while writable. -/
theorem join_ignores_terminal_status
    (storage : Storage) (st : ServerState) (openConns : Nat → Bool) (conn : Nat)
    (uid nid : String) (neg : Negotiation)
    (hnid : nid ≠ "") (huid : uid ≠ "")
    (hget : storage.getNegotiation nid = some neg)
    (hpart : neg.buyerId = uid ∨ neg.sellerId = uid) :
    (∃ room, mapGet (handleJoinNegotiation storage st conn
        (some uid) (some nid)).1.negotiationRooms nid = some room ∧ conn ∈ room) ∧
    (handleJoinNegotiation storage st conn (some uid) (some nid)).2
      = [Effect.sendFrame conn (OutFrame.negotiation_joined nid)] ∧
    (openConns conn = true → ∀ frame,
      Effect.sendFrame conn frame
        ∈ broadcastToNegotiation (handleJoinNegotiation storage st conn
            (some uid) (some nid)).1 openConns nid frame) := by
  have hcond : ¬(nid = "" ∨ uid = "") := by simp [hnid, huid]
  have hp : ¬(neg.buyerId ≠ uid ∧ neg.sellerId ≠ uid) := by
    rcases hpart with h | h <;> simp [h]
  have hjoin1 : (handleJoinNegotiation storage st conn (some uid) (some nid)).1
      = { st with negotiationRooms := mapSet st.negotiationRooms nid (setAdd ((mapGet st.negotiationRooms nid).getD []) conn) } := by
    simp [handleJoinNegotiation, hcond, hget, hp]
  have hjoin2 : (handleJoinNegotiation storage st conn (some uid) (some nid)).2
      = [Effect.sendFrame conn (OutFrame.negotiation_joined nid)] := by
    simp [handleJoinNegotiation, hcond, hget, hp]
  have hroom : mapGet (handleJoinNegotiation storage st conn
      (some uid) (some nid)).1.negotiationRooms nid
      = some (setAdd ((mapGet st.negotiationRooms nid).getD []) conn) := by
    rw [hjoin1]
    exact mapGet_mapSet_self _ _ _
  refine ⟨⟨_, hroom, mem_setAdd_self _ _⟩, hjoin2, ?_⟩
  intro hopen frame
  exact mem_broadcastToNegotiation hroom (mem_setAdd_self _ _) hopen

/-- C10 witness: the buyer connection 7 joins the completed fixture
negotiation: it is added to the room, confirmed, and reached by a later
room broadcast even though the status is completed. -/
theorem join_ignores_terminal_status_witness :
    negCompleted.status = "completed" ∧
    (∃ room, mapGet (handleJoinNegotiation storageFix stEmpty 7
        (some "b1") (some "n1")).1.negotiationRooms "n1" = some room ∧ 7 ∈ room) ∧
    (handleJoinNegotiation storageFix stEmpty 7 (some "b1") (some "n1")).2
      = [Effect.sendFrame 7 (OutFrame.negotiation_joined "n1")] ∧
    (allOpen 7 = true → ∀ frame,
      Effect.sendFrame 7 frame
        ∈ broadcastToNegotiation (handleJoinNegotiation storageFix stEmpty 7
            (some "b1") (some "n1")).1 allOpen "n1" frame) :=
  ⟨rfl, join_ignores_terminal_status storageFix stEmpty allOpen 7 "b1" "n1" negCompleted
    (by decide) (by decide) rfl (Or.inl rfl)⟩
